import Mathlib

/-!
Shallow embedding of the view-mode camera choreography engine of the
`valentine_countdown` repository, together with theorems checking the
natural-language specification against it.

Embedded source files:
* `src/lib/cesium/cameraConstraints.ts` — per-mode zoom limits, debounced
  corrective zoom clamp (`applyCameraConstraints`, `clampCameraToBounds`,
  `scheduleClampCheck`).
* `src/lib/cesium/autoRotate.ts` — `applyOverviewConstraints`,
  `removeOverviewConstraints`, `AutoRotateController.tick`.
* `src/lib/cesium/camera/poses.ts` — `computeEarthCenteredPoseAboveLatLng`.
* `src/components/Globe.tsx` / `src/components/StopList.tsx` — the
  fly-to-selected-stop effect, `flyToOverviewAboveStop`, and the app-level
  stop-selection handler.

Numeric modelling: wall-clock timestamps and camera distances in the discrete
event models use `ℤ` (milliseconds / meters); the vector geometry of camera poses uses `ℝ` with
`Real.sqrt` for magnitudes. JavaScript `Number.POSITIVE_INFINITY` is modelled
as `none : Option ℚ` where it occurs as a zoom limit.
-/

namespace Tour

/-! ## View modes and zoom limits (`cameraConstraints.ts`, `autoRotate.ts`) -/

/-- Embedding of `type ViewMode = 'overview' | 'venue' | 'transition'`
(`cameraConstraints.ts`, line 4). -/
inductive ViewMode where
  | overview
  | venue
  | transition
deriving DecidableEq, Repr

/-- Zoom limits of the screen-space camera controller:
`minimumZoomDistance` / `maximumZoomDistance` in meters.
`maxZoom = none` models `Number.POSITIVE_INFINITY`. -/
structure ZoomLimits where
  minZoom : ℤ
  maxZoom : Option ℤ
deriving DecidableEq, Repr

/-- Constant `VENUE_MIN_ZOOM = 500` (`cameraConstraints.ts`, line 6). -/
def VENUE_MIN_ZOOM : ℤ := 500

/-- Constant `VENUE_MAX_ZOOM = 1000` (`cameraConstraints.ts`, line 7). -/
def VENUE_MAX_ZOOM : ℤ := 1000

/-- Constant `OVERVIEW_MIN_ZOOM = 2_000_000` (`cameraConstraints.ts`, line 8). -/
def OVERVIEW_MIN_ZOOM : ℤ := 2000000

/-- Constant `OVERVIEW_MAX_ZOOM = 30_000_000` (`cameraConstraints.ts`, line 9). -/
def OVERVIEW_MAX_ZOOM : ℤ := 30000000

/-- Constant `WHEEL_CLAMP_DELAY_MS = 150` (`cameraConstraints.ts`, line 12). -/
def WHEEL_CLAMP_DELAY_MS : ℤ := 150

/-- Embedding of `applyCameraConstraints` (`cameraConstraints.ts`, lines 23–37),
restricted to the zoom limits it writes to the controller (the function also
stores `currentViewMode`, which the event model below tracks separately). -/
def applyCameraConstraints : ViewMode → ZoomLimits
  | ViewMode.venue => ⟨VENUE_MIN_ZOOM, some VENUE_MAX_ZOOM⟩
  | ViewMode.transition => ⟨1, none⟩
  | ViewMode.overview => ⟨OVERVIEW_MIN_ZOOM, some OVERVIEW_MAX_ZOOM⟩

/-- Embedding of `applyOverviewConstraints` (`autoRotate.ts`, lines 14–18):
the zoom limits it writes are `20_000_000` / `40_000_000`. -/
def applyOverviewConstraints : ZoomLimits := ⟨20000000, some 40000000⟩

/-- Embedding of `removeOverviewConstraints` (`autoRotate.ts`, lines 23–27):
`minimumZoomDistance = 1.0`, `maximumZoomDistance = Number.POSITIVE_INFINITY`. -/
def removeOverviewConstraints : ZoomLimits := ⟨1, none⟩

/-! ## Zoom-governor event model (`cameraConstraints.ts`, lines 83–163)

The module-level mutable state of `cameraConstraints.ts`
(`currentViewMode`, `lastWheelTs`, `clampScheduled`), together with the
number of live `requestAnimationFrame` check loops spawned by
`scheduleClampCheck`, the active corrective flight (at most one: the host
engine's `camera.flyTo` cancels any current flight before starting a new
one, running the old flight's `cancel` callback), and a one-dimensional
camera model: the distance from the camera to the active clamp target.
All check loops read the same module-level `lastWheelTs`, so on a given
animation frame either all of them see an elapsed quiet period or none do. -/
structure GovState where
  mode : ViewMode
  /-- is a tracked entity with a resolvable position present
  (`viewer.trackedEntity?.position` and `getValue` succeeding)? -/
  tracked : Bool
  lastWheelTs : ℤ
  clampScheduled : Bool
  /-- number of live `requestAnimationFrame` check loops. -/
  pendingChecks : ℕ
  /-- number of active corrective flights (0 or 1 for the host engine). -/
  flights : ℕ
  /-- camera-to-target distance the active flight will land at. -/
  flightDest : ℤ
  /-- current camera-to-target distance, as measured by `clampCameraToBounds`. -/
  dist : ℤ
deriving DecidableEq, Repr

/-- Active minimum bound used by `clampCameraToBounds` (lines 94–111): venue
bounds when in venue mode with a tracked entity, otherwise overview bounds. -/
def govMinDist (mode : ViewMode) (tracked : Bool) : ℤ :=
  if mode = ViewMode.venue ∧ tracked then VENUE_MIN_ZOOM else OVERVIEW_MIN_ZOOM

/-- Active maximum bound used by `clampCameraToBounds` (lines 94–111). -/
def govMaxDist (mode : ViewMode) (tracked : Bool) : ℤ :=
  if mode = ViewMode.venue ∧ tracked then VENUE_MAX_ZOOM else OVERVIEW_MAX_ZOOM

/-- Landing distance of the corrective flight issued by `clampCameraToBounds`
(lines 116–131), i.e. the distance from the flight destination `newPos` to the
clamp target. In venue mode the code multiplies the *unnormalized*
camera-minus-target vector (whose magnitude is `currentDist`) by the clamped
distance, so the flight lands at `currentDist * clampedDist` meters from the
target; in overview mode the destination is `centerToCam * (radius + clamped)`,
which is exactly `clamped` meters from the surface point. -/
def govLandingDist (mode : ViewMode) (currentDist clamped : ℤ) : ℤ :=
  if mode = ViewMode.venue then currentDist * clamped else clamped

/-- Host-engine semantics of `camera.flyTo` for the corrective flight
(lines 133–143): starting a new flight first cancels any active one, which
runs the old flight's `cancel` callback (`clampScheduled = false`); then the
new flight becomes active and the code sets `clampScheduled = true`. -/
def govFlyTo (dest : ℤ) (s : GovState) : GovState :=
  let s1 := if s.flights ≠ 0 then { s with flights := 0, clampScheduled := false } else s
  { s1 with flights := 1, flightDest := dest, clampScheduled := true }

/-- Embedding of `clampCameraToBounds` (`cameraConstraints.ts`, lines 83–144)
on the one-dimensional distance model: early return in transition mode or when
the measured distance is within bounds; otherwise clamp with
`CesiumMath.clamp = min(max(value, min), max)` and issue the corrective flight. -/
def clampCameraToBounds (s : GovState) : GovState :=
  if s.mode = ViewMode.transition then s
  else
    let minD := govMinDist s.mode s.tracked
    let maxD := govMaxDist s.mode s.tracked
    if minD ≤ s.dist ∧ s.dist ≤ maxD then s
    else
      let clamped := min (max s.dist minD) maxD
      govFlyTo (govLandingDist s.mode s.dist clamped) s

/-- Embedding of the wheel handler `scheduleClampCheck` (lines 149–163):
stamp `lastWheelTs`, return early if `clampScheduled`, otherwise spawn a new
`requestAnimationFrame` check loop. -/
def scheduleClampCheck (t : ℤ) (s : GovState) : GovState :=
  let s1 := { s with lastWheelTs := t }
  if s1.clampScheduled then s1
  else { s1 with pendingChecks := s1.pendingChecks + 1 }

/-- Body of one firing check loop (lines 153–159, case `elapsed ≥ 150`):
set `clampScheduled = true`, then run `clampCameraToBounds`; the loop exits. -/
def fireOneCheck (s : GovState) : GovState :=
  clampCameraToBounds { s with clampScheduled := true }

/-- Runs `n` firing check loops in sequence. -/
def fireChecks : ℕ → GovState → GovState
  | 0, s => s
  | n + 1, s => fireChecks n (fireOneCheck s)

/-- Events driving the zoom governor. `wheel` and `raf` carry the current
`performance.now()` timestamp; `flightComplete` ends the active corrective
flight at its destination; `flightCancelled` ends it mid-route at distance
`d`; `engineZoom` is the host controller moving the camera to distance `d`
in response to user zoom; `setMode` is `applyCameraConstraints` updating the
module-level `currentViewMode`; `setTracked` is the viewer's tracked entity
appearing or disappearing. -/
inductive GovEvent where
  | wheel (t : ℤ)
  | raf (t : ℤ)
  | flightComplete
  | flightCancelled (d : ℤ)
  | engineZoom (d : ℤ)
  | setMode (m : ViewMode)
  | setTracked (b : Bool)
deriving DecidableEq, Repr

/-- One step of the zoom-governor event model. On `raf t`, every live check
loop runs; all of them compare `t` against the same module-level
`lastWheelTs`, so either all fire (and exit) or all re-queue. On
`flightComplete` / `flightCancelled`, the flight's `complete` / `cancel`
callback (lines 136–141) resets `clampScheduled`. -/
def govStep (s : GovState) : GovEvent → GovState
  | GovEvent.wheel t => scheduleClampCheck t s
  | GovEvent.raf t =>
      if WHEEL_CLAMP_DELAY_MS ≤ t - s.lastWheelTs then
        { fireChecks s.pendingChecks s with pendingChecks := 0 }
      else s
  | GovEvent.flightComplete =>
      if s.flights ≠ 0 then
        { s with flights := 0, clampScheduled := false, dist := s.flightDest }
      else s
  | GovEvent.flightCancelled d =>
      if s.flights ≠ 0 then
        { s with flights := 0, clampScheduled := false, dist := d }
      else s
  | GovEvent.engineZoom d => { s with dist := d }
  | GovEvent.setMode m => { s with mode := m }
  | GovEvent.setTracked b => { s with tracked := b }

/-- Folds a list of events over the governor model. -/
def govRun (s : GovState) (evs : List GovEvent) : GovState :=
  evs.foldl govStep s

/-- Latched governor state: `clampScheduled` stuck at `true` with no active
corrective flight and no live check loop. Only a flight's `complete`/`cancel`
callback ever resets `clampScheduled`, so this configuration is absorbing. -/
def GovLatched (s : GovState) : Prop :=
  s.clampScheduled = true ∧ s.flights = 0 ∧ s.pendingChecks = 0

instance (s : GovState) : Decidable (GovLatched s) := by
  unfold GovLatched
  infer_instance

/-- Measured distance is inside the active bounds of `clampCameraToBounds`. -/
def govInBounds (s : GovState) : Prop :=
  govMinDist s.mode s.tracked ≤ s.dist ∧ s.dist ≤ govMaxDist s.mode s.tracked

instance (s : GovState) : Decidable (govInBounds s) := by
  unfold govInBounds
  infer_instance

/-- State reached from venue mode with a tracked entity at distance 1500 m
(out of bounds) by: wheel at t=0; animation frame at t=200 (quiet period
elapsed, corrective flight issued); wheel at t=250 while the correction is in
flight; completion of the corrective flight. -/
def govTraceAfterCorrection : GovState :=
  govRun ⟨ViewMode.venue, true, 0, false, 0, 0, 0, 1500⟩
    [GovEvent.wheel 0, GovEvent.raf 200, GovEvent.wheel 250, GovEvent.flightComplete]

/-! ## Auto-rotate controller (`autoRotate.ts`, lines 29–161) -/

/-- Constant `AUTO_ROTATE_SPEED = 0.015` rad/sec (`autoRotate.ts`, line 29). -/
def AUTO_ROTATE_SPEED : ℚ := 15 / 1000

/-- Constant `WHEEL_COOLDOWN_MS = 1200` (`autoRotate.ts`, line 30). -/
def WHEEL_COOLDOWN_MS : ℚ := 1200

/-- Private mutable fields of `AutoRotateController` read and written by
`tick` (`autoRotate.ts`, lines 44–161). -/
structure RotState where
  autoRotateEnabled : Bool
  isUserInteracting : Bool
  lastInteractionTs : ℚ
  isCameraAnimating : Bool
  lastTickTs : ℚ
deriving DecidableEq, Repr

/-- Embedding of `AutoRotateController.tick` (`autoRotate.ts`, lines 149–161).
Returns the updated state and, when a rotation happens, `some angle` for the
`camera.rotate(UNIT_Z, angle)` call; `none` means no rotation call at all.
`this.lastTickTs ? ... : 1/60` uses JavaScript truthiness: `0` is falsy. -/
def rotTick (now : ℚ) (s : RotState) : RotState × Option ℚ :=
  if !s.autoRotateEnabled then (s, none)
  else if s.isUserInteracting then (s, none)
  else if s.isCameraAnimating then (s, none)
  else if now - s.lastInteractionTs < WHEEL_COOLDOWN_MS then (s, none)
  else
    let dt := if s.lastTickTs ≠ 0 then (now - s.lastTickTs) / 1000 else 1 / 60
    let clampedDt := min dt (1 / 30)
    ({ s with lastTickTs := now }, some (AUTO_ROTATE_SPEED * clampedDt))

/-! ## Venue flight duration (`Globe.tsx` line 342, `StopList.tsx` line 467)

Both fly-to-selected-stop effects compute
`duration = Math.min(1.15, Math.max(0.45, dist / 3_500_000))`. -/

/-- Embedding of the venue-flight duration formula used at flight issue time
in both `Globe.tsx` and `StopList.tsx`. -/
def venueFlightDuration (dist : ℚ) : ℚ :=
  min (115 / 100) (max (45 / 100) (dist / 3500000))

/-! ## Stops and the fly-to / fly-out effects (`Globe.tsx`, `StopList.tsx`)

The fields of a `Stop` that the camera code reads: its id and its nullable
latitude/longitude in degrees. The guards in the components are JavaScript
truthiness tests (`!stop.lat`), so `null` and the number `0` behave alike. -/

/-- Stop record restricted to the fields the camera choreography reads.
`lat`/`lng` are nullable (`none` models `null`). -/
structure Stop where
  id : ℕ
  lat : Option ℚ
  lng : Option ℚ
deriving DecidableEq, Repr

/-- JavaScript truthiness of a nullable number: `null` and `0` are falsy
(`NaN`, which is also falsy, does not occur in the stop data model). -/
def jsTruthy : Option ℚ → Bool
  | none => false
  | some q => q ≠ 0

/-- Optional chaining `selectedStop?.lat`: `undefined` when the stop lookup
failed, the stop's `lat` field otherwise. -/
def optLat : Option Stop → Option ℚ
  | none => none
  | some s => s.lat

/-- Optional chaining `selectedStop?.lng`. -/
def optLng : Option Stop → Option ℚ
  | none => none
  | some s => s.lng

/-- Side effects performed by the fly-to-selected-stop effect of
`Globe.tsx` (lines 316–368) / `StopList.tsx` (lines 438–519) once all its
guards pass. When the effect returns early, none of them happen. -/
structure VenueFx where
  /-- `routeManagerRef.current?.setRouteVisible(false)` ran. -/
  routeHidden : Bool
  /-- `autoRotateControllerRef.current?.onFlightStart()` ran. -/
  autoRotateSuspended : Bool
  /-- `removeOverviewConstraints(viewer)` ran. -/
  overviewConstraintsRemoved : Bool
  /-- `setMapMode('venue', ...)` ran. -/
  mapModeSetVenue : Bool
  /-- a flight destination / offset pose was computed. -/
  poseComputed : Bool
  /-- `viewer.flyTo` / `viewer.camera.flyTo` was called. -/
  flightIssued : Bool
deriving DecidableEq, Repr

/-- No side effect at all (every guard path that returns early). -/
def VenueFx.none : VenueFx := ⟨false, false, false, false, false, false⟩

/-- Every side effect of the effect body (the guards all passed). -/
def VenueFx.all : VenueFx := ⟨true, true, true, true, true, true⟩

/-- Embedding of the fly-to-selected-stop effect (`Globe.tsx` lines 316–368,
`StopList.tsx` lines 438–519): the guard chain
`!allowFlyToSelectedRef.current`, `!viewer || !gibsLayer || !osmLayer ||
!selectedStopId || stops.length === 0 || !isReady`, and
`!selectedStop?.lat || !selectedStop?.lng`, followed by the effect body.
`refsOk` collapses the three viewer/layer refs. -/
def flyToSelectedEffect (allowFly refsOk isReady : Bool)
    (selectedStopId : Option ℕ) (stops : List Stop) : VenueFx :=
  if !allowFly then VenueFx.none
  else if !refsOk ∨ selectedStopId = none ∨ stops.length = 0 ∨ !isReady then VenueFx.none
  else
    let selectedStop := stops.find? (fun s => some s.id = selectedStopId)
    if !jsTruthy (optLat selectedStop) ∨ !jsTruthy (optLng selectedStop) then VenueFx.none
    else VenueFx.all

/-- Side effects of `flyToOverviewAboveStop` (`StopList.tsx`, lines 186–222)
once its guard passes. -/
structure OverviewFx where
  /-- `setMapMode('overview', ...)` ran. -/
  mapModeSetOverview : Bool
  /-- `setRouteVisible(true)` ran. -/
  routeShown : Bool
  /-- `onFlightStart()` and `applyOverviewConstraints(viewer)` ran. -/
  flightPrepared : Bool
  /-- `computeEarthCenteredPoseAboveLatLng` was called. -/
  poseComputed : Bool
  /-- `viewer.camera.flyTo` was called. -/
  flightIssued : Bool
deriving DecidableEq, Repr

/-- No side effect (the guard returned `Promise.resolve()`). -/
def OverviewFx.none : OverviewFx := ⟨false, false, false, false, false⟩

/-- Every side effect of the `flyToOverviewAboveStop` body. -/
def OverviewFx.all : OverviewFx := ⟨true, true, true, true, true⟩

/-- Embedding of `flyToOverviewAboveStop` (`StopList.tsx`, lines 186–222):
guard `!viewer || !gibsLayer || !osmLayer || !stop.lat || !stop.lng` returns
`Promise.resolve()` with no side effect; otherwise the body runs. -/
def flyToOverviewAboveStop (refsOk : Bool) (stop : Stop) : OverviewFx :=
  if !refsOk ∨ !jsTruthy stop.lat ∨ !jsTruthy stop.lng then OverviewFx.none
  else OverviewFx.all

/-- App-level view mode (`StopList.tsx` App component, line 27:
`type ViewMode = 'overview' | 'venue'`). -/
inductive AppMode where
  | overview
  | venue
deriving DecidableEq, Repr

/-- App-level state touched by stop selection (`StopList.tsx` App component):
`viewMode`, `selectedStopId`, `lastSelectedStopId`. -/
structure AppState where
  viewMode : AppMode
  selectedStopId : Option ℕ
  lastSelectedStopId : Option ℕ
deriving DecidableEq, Repr

/-- Embedding of `handleStopSelection` (`StopList.tsx` App component,
lines 110–125): look the stop up; if absent, return; otherwise set
`selectedStopId`, `lastSelectedStopId`, and `viewMode = 'venue'` —
with no check of the stop's coordinates. -/
def handleStopSelection (stops : List Stop) (stopId : ℕ) (s : AppState) : AppState :=
  match stops.find? (fun st => st.id = stopId) with
  | Option.none => s
  | Option.some _ =>
      { s with selectedStopId := some stopId, lastSelectedStopId := some stopId,
               viewMode := AppMode.venue }

/-! ## Camera-pose geometry (`camera/poses.ts`, `cameraConstraints.ts`)

Vectors over `ℝ`, with the Cesium `Cartesian3` operations the repository
calls. Magnitude uses `Real.sqrt`, so this section is noncomputable; the
witnesses evaluate it through explicit `simp`/`norm_num` computations. -/

noncomputable section

/-- Cesium `Cartesian3`, over `ℝ`. -/
@[ext]
structure Vec3 where
  x : ℝ
  y : ℝ
  z : ℝ

namespace Vec3

/-- Zero vector, `Cartesian3.ZERO`. -/
def zero : Vec3 := ⟨0, 0, 0⟩

/-- Componentwise sum, `Cartesian3.add`. -/
def add (u v : Vec3) : Vec3 := ⟨u.x + v.x, u.y + v.y, u.z + v.z⟩

/-- Componentwise difference, `Cartesian3.subtract`. -/
def sub (u v : Vec3) : Vec3 := ⟨u.x - v.x, u.y - v.y, u.z - v.z⟩

/-- Componentwise negation, `Cartesian3.negate`. -/
def neg (v : Vec3) : Vec3 := ⟨-v.x, -v.y, -v.z⟩

/-- Scalar multiple, `Cartesian3.multiplyByScalar`. -/
def scale (c : ℝ) (v : Vec3) : Vec3 := ⟨c * v.x, c * v.y, c * v.z⟩

/-- Dot product, `Cartesian3.dot`. -/
def dot (u v : Vec3) : ℝ := u.x * v.x + u.y * v.y + u.z * v.z

/-- Cross product, `Cartesian3.cross`. -/
def cross (u v : Vec3) : Vec3 :=
  ⟨u.y * v.z - u.z * v.y, u.z * v.x - u.x * v.z, u.x * v.y - u.y * v.x⟩

/-- Squared magnitude, `Cartesian3.magnitudeSquared`. -/
def magnitudeSquared (v : Vec3) : ℝ := v.x ^ 2 + v.y ^ 2 + v.z ^ 2

/-- Magnitude, `Cartesian3.magnitude`. -/
def magnitude (v : Vec3) : ℝ := Real.sqrt (magnitudeSquared v)

/-- Unit vector in the direction of `v`, `Cartesian3.normalize`. -/
def normalize (v : Vec3) : Vec3 := scale (1 / magnitude v) v

/-- Distance between two points, `Cartesian3.distance`. -/
def distance (u v : Vec3) : ℝ := magnitude (sub u v)

/-- Axis `Cartesian3.UNIT_X`. -/
def unitX : Vec3 := ⟨1, 0, 0⟩

/-- Axis `Cartesian3.UNIT_Z` (the polar axis). -/
def unitZ : Vec3 := ⟨0, 0, 1⟩

end Vec3

/-- Semi-major axis of `Ellipsoid.WGS84` in meters. -/
def wgs84a : ℝ := 6378137

/-- Semi-minor (polar) axis of `Ellipsoid.WGS84` in meters. -/
def wgs84b : ℝ := 6356752.3142451793

/-- Degrees to radians, `CesiumMath.toRadians`. -/
def toRadians (deg : ℝ) : ℝ := deg * Real.pi / 180

/-- Geodetic surface normal at a cartographic point (Cesium
`Ellipsoid.geodeticSurfaceNormalCartographic`). Cesium normalizes this
vector, but over `ℝ` it is already unit (`cos²φ·cos²λ + cos²φ·sin²λ +
sin²φ = 1`), so the normalization is the identity and is omitted. -/
def geodeticSurfaceNormal (lonRad latRad : ℝ) : Vec3 :=
  ⟨Real.cos latRad * Real.cos lonRad, Real.cos latRad * Real.sin lonRad, Real.sin latRad⟩

/-- Intermediate value `k = radiiSquared * n` of Cesium
`cartographicToCartesian`, for `Ellipsoid.WGS84` (whose `radiiSquared`
componentwise squares the radii). -/
def wgsK (lonDeg latDeg : ℝ) : Vec3 :=
  ⟨wgs84a * wgs84a * (geodeticSurfaceNormal (toRadians lonDeg) (toRadians latDeg)).x,
   wgs84a * wgs84a * (geodeticSurfaceNormal (toRadians lonDeg) (toRadians latDeg)).y,
   wgs84b * wgs84b * (geodeticSurfaceNormal (toRadians lonDeg) (toRadians latDeg)).z⟩

/-- Intermediate value `γ = √(n·k)` of Cesium `cartographicToCartesian`. -/
def wgsGamma (lonDeg latDeg : ℝ) : ℝ :=
  Real.sqrt (Vec3.dot (geodeticSurfaceNormal (toRadians lonDeg) (toRadians latDeg))
    (wgsK lonDeg latDeg))

/-- Cesium `ellipsoid.cartographicToCartesian` for `Ellipsoid.WGS84` at
height 0 (the repository always passes `Cartographic.fromDegrees(lon, lat, 0)`):
`surface = k/γ` (the `height * n` term vanishes at height 0). -/
def cartographicToCartesianWGS84 (lonDeg latDeg : ℝ) : Vec3 :=
  Vec3.scale (1 / wgsGamma lonDeg latDeg) (wgsK lonDeg latDeg)

/-- Camera pose: destination plus look direction and up vector
(`CameraPose` in `camera/poses.ts`). -/
structure CameraPose where
  destination : Vec3
  direction : Vec3
  up : Vec3

/-- Embedding of `computeEarthCenteredPoseAboveLatLng`
(`camera/poses.ts`, lines 25–49): place the camera `distanceFromCenterMeters`
from the body center along the surface normal above the anchor, looking at the
center; `up` is the north vector from the east/normal basis, with a fallback
to `UNIT_X` when `|cross(UNIT_Z, n)| < 1e-10` (polar anchor). -/
def computeEarthCenteredPoseAboveLatLng (lonDeg latDeg distanceFromCenterMeters : ℝ) :
    CameraPose :=
  let surface := cartographicToCartesianWGS84 lonDeg latDeg
  let n := Vec3.normalize surface
  let destination := Vec3.scale distanceFromCenterMeters n
  let direction := Vec3.normalize (Vec3.neg destination)
  let east := Vec3.cross Vec3.unitZ n
  let eastMag := Vec3.magnitude east
  let north :=
    if eastMag < 1 / 10 ^ 10 then Vec3.unitX
    else Vec3.normalize (Vec3.cross n (Vec3.normalize east))
  { destination := destination, direction := direction, up := north }

/-- Shared tail of `clampCameraToBounds` (`cameraConstraints.ts`,
lines 113–131) in the vector model: measure the current camera-to-target
distance, return `none` (no corrective flight) when it is within bounds,
otherwise clamp it and return the flight destination `newPos`. The `newPos`
branch tests only `currentViewMode === 'venue'` (line 118), exactly as the
source does. -/
def clampDestFrom (mode : ViewMode) (camPos : Vec3) (minDist maxDist : ℝ)
    (targetPos direction : Vec3) (radius : ℝ) : Option Vec3 :=
  let currentDist := Vec3.distance camPos targetPos
  if minDist ≤ currentDist ∧ currentDist ≤ maxDist then Option.none
  else
    let clampedDist := min (max currentDist minDist) maxDist
    Option.some
      (if mode = ViewMode.venue then Vec3.add targetPos (Vec3.scale clampedDist direction)
       else Vec3.scale (radius + clampedDist) direction)

/-- Embedding of the geometry of `clampCameraToBounds` (`cameraConstraints.ts`,
lines 83–131), returning the corrective-flight destination (or `none` when no
flight is issued). In venue mode with a tracked entity the target is the
entity's position and `direction = camera - target` is *not* normalized
(line 100); otherwise the target is the surface projection of the camera and
the direction is the normalized center-to-camera ray (lines 103–110). -/
def clampCameraToBoundsDest (mode : ViewMode) (camPos : Vec3)
    (tracked : Option Vec3) (radius : ℝ) : Option Vec3 :=
  if mode = ViewMode.transition then Option.none
  else
    match mode, tracked with
    | ViewMode.venue, Option.some targetPos =>
        clampDestFrom mode camPos 500 1000 targetPos (Vec3.sub camPos targetPos) radius
    | _, _ =>
        let centerToCam := Vec3.normalize camPos
        clampDestFrom mode camPos 2000000 30000000
          (Vec3.scale radius centerToCam) centerToCam radius

end

/-! ## Vector lemma kit -/

namespace Vec3

theorem magnitudeSquared_nonneg (v : Vec3) : 0 ≤ magnitudeSquared v := by
  have := sq_nonneg v.x
  have := sq_nonneg v.y
  have := sq_nonneg v.z
  simp only [magnitudeSquared]
  linarith

theorem magnitude_nonneg (v : Vec3) : 0 ≤ magnitude v := Real.sqrt_nonneg _

theorem sq_magnitude (v : Vec3) : magnitude v ^ 2 = magnitudeSquared v :=
  Real.sq_sqrt (magnitudeSquared_nonneg v)

theorem magnitudeSquared_eq_zero_iff (v : Vec3) : magnitudeSquared v = 0 ↔ v = zero := by
  constructor
  · intro h
    have hx : v.x ^ 2 = 0 := by
      have := sq_nonneg v.y; have := sq_nonneg v.z; have := sq_nonneg v.x
      simp only [magnitudeSquared] at h; linarith
    have hy : v.y ^ 2 = 0 := by
      have := sq_nonneg v.y; have := sq_nonneg v.z; have := sq_nonneg v.x
      simp only [magnitudeSquared] at h; linarith
    have hz : v.z ^ 2 = 0 := by
      have := sq_nonneg v.y; have := sq_nonneg v.z; have := sq_nonneg v.x
      simp only [magnitudeSquared] at h; linarith
    ext
    · exact pow_eq_zero_iff (n := 2) (by norm_num) |>.mp hx
    · exact pow_eq_zero_iff (n := 2) (by norm_num) |>.mp hy
    · exact pow_eq_zero_iff (n := 2) (by norm_num) |>.mp hz
  · intro h
    subst h
    simp [magnitudeSquared, zero]

theorem magnitude_eq_zero_iff (v : Vec3) : magnitude v = 0 ↔ v = zero := by
  rw [magnitude, Real.sqrt_eq_zero (magnitudeSquared_nonneg v)]
  exact magnitudeSquared_eq_zero_iff v

theorem magnitude_pos (v : Vec3) (h : v ≠ zero) : 0 < magnitude v :=
  lt_of_le_of_ne (magnitude_nonneg v)
    (fun he => h ((magnitude_eq_zero_iff v).mp he.symm))

theorem magnitudeSquared_scale (c : ℝ) (v : Vec3) :
    magnitudeSquared (scale c v) = c ^ 2 * magnitudeSquared v := by
  simp only [magnitudeSquared, scale]
  ring

theorem magnitude_scale (c : ℝ) (v : Vec3) :
    magnitude (scale c v) = |c| * magnitude v := by
  rw [magnitude, magnitude, magnitudeSquared_scale, Real.sqrt_mul (sq_nonneg c),
    Real.sqrt_sq_eq_abs]

theorem magnitude_normalize (v : Vec3) (h : v ≠ zero) : magnitude (normalize v) = 1 := by
  have hm := magnitude_pos v h
  rw [normalize, magnitude_scale, abs_of_pos (by positivity : (0:ℝ) < 1 / magnitude v)]
  field_simp

theorem dot_comm (u v : Vec3) : dot u v = dot v u := by
  simp only [dot]
  ring

theorem dot_scale_left (c : ℝ) (u v : Vec3) : dot (scale c u) v = c * dot u v := by
  simp only [dot, scale]
  ring

theorem dot_scale_right (c : ℝ) (u v : Vec3) : dot u (scale c v) = c * dot u v := by
  simp only [dot, scale]
  ring

theorem dot_cross_left (u v : Vec3) : dot (cross u v) u = 0 := by
  simp only [dot, cross]
  ring

theorem dot_cross_right (u v : Vec3) : dot (cross u v) v = 0 := by
  simp only [dot, cross]
  ring

theorem magnitudeSquared_cross (u v : Vec3) :
    magnitudeSquared (cross u v) =
      magnitudeSquared u * magnitudeSquared v - dot u v ^ 2 := by
  simp only [magnitudeSquared, cross, dot]
  ring

theorem scale_scale (a b : ℝ) (v : Vec3) : scale a (scale b v) = scale (a * b) v := by
  ext <;> simp only [scale] <;> ring

theorem neg_eq_scale (v : Vec3) : neg v = scale (-1) v := by
  ext <;> simp only [neg, scale] <;> ring

theorem magnitudeSquared_of_magnitude_one (v : Vec3) (h : magnitude v = 1) :
    magnitudeSquared v = 1 := by
  rw [← sq_magnitude, h]
  norm_num

theorem normalize_neg_scale (d : ℝ) (hd : 0 < d) (n : Vec3) (hn : magnitude n = 1) :
    normalize (neg (scale d n)) = scale (-1) n := by
  rw [neg_eq_scale, scale_scale]
  have hm : magnitude (scale (-1 * d) n) = d := by
    rw [magnitude_scale, hn, mul_one, abs_of_neg (by linarith : -1 * d < 0)]
    ring
  rw [normalize, hm, scale_scale]
  congr 1
  field_simp

theorem magnitude_xaxis (a : ℝ) : magnitude ⟨a, 0, 0⟩ = |a| := by
  rw [magnitude]
  simp only [magnitudeSquared]
  rw [show a ^ 2 + 0 ^ 2 + 0 ^ 2 = a ^ 2 by ring, Real.sqrt_sq_eq_abs]

theorem magnitude_zaxis (a : ℝ) : magnitude ⟨0, 0, a⟩ = |a| := by
  rw [magnitude]
  simp only [magnitudeSquared]
  rw [show (0:ℝ) ^ 2 + 0 ^ 2 + a ^ 2 = a ^ 2 by ring, Real.sqrt_sq_eq_abs]

theorem magnitude_yaxis (a : ℝ) : magnitude ⟨0, a, 0⟩ = |a| := by
  rw [magnitude]
  simp only [magnitudeSquared]
  rw [show (0:ℝ) ^ 2 + a ^ 2 + 0 ^ 2 = a ^ 2 by ring, Real.sqrt_sq_eq_abs]

theorem cross_unitZ_eq (n : Vec3) : cross unitZ n = ⟨-n.y, n.x, 0⟩ := by
  ext <;> simp [cross, unitZ]

theorem abs_x_le_magnitude_cross_unitZ (n : Vec3) : |n.x| ≤ magnitude (cross unitZ n) := by
  rw [cross_unitZ_eq, magnitude, ← Real.sqrt_sq_eq_abs]
  apply Real.sqrt_le_sqrt
  simp only [magnitudeSquared]
  nlinarith [sq_nonneg n.y]

end Vec3

/-! ## Ellipsoid lemmas -/

theorem wgs84b_pos : (0:ℝ) < wgs84b := by
  norm_num [wgs84b]

theorem wgs84b_le_a : wgs84b ≤ wgs84a := by
  norm_num [wgs84a, wgs84b]

theorem dot_gsn_wgsK_pos (lonDeg latDeg : ℝ) :
    0 < Vec3.dot (geodeticSurfaceNormal (toRadians lonDeg) (toRadians latDeg))
      (wgsK lonDeg latDeg) := by
  have hb := wgs84b_pos
  have hab := wgs84b_le_a
  have hbb : (0:ℝ) < wgs84b * wgs84b := mul_pos hb hb
  have habb : wgs84b * wgs84b ≤ wgs84a * wgs84a :=
    mul_le_mul hab hab hb.le (hb.le.trans hab)
  have h1 := Real.sin_sq_add_cos_sq (toRadians lonDeg)
  have h2 := Real.sin_sq_add_cos_sq (toRadians latDeg)
  simp only [Vec3.dot, wgsK, geodeticSurfaceNormal]
  set cp := Real.cos (toRadians latDeg) with hcp
  set sp := Real.sin (toRadians latDeg) with hsp
  set cl := Real.cos (toRadians lonDeg) with hcl
  set sl := Real.sin (toRadians lonDeg) with hsl
  have key : cp * cl * (wgs84a * wgs84a * (cp * cl)) + cp * sl * (wgs84a * wgs84a * (cp * sl))
      + sp * (wgs84b * wgs84b * sp)
      = wgs84a * wgs84a * cp ^ 2 + wgs84b * wgs84b * sp ^ 2 := by
    linear_combination (wgs84a * wgs84a * cp ^ 2) * h1
  rw [key]
  nlinarith [h2, hbb, habb, sq_nonneg cp, sq_nonneg sp]

theorem wgsGamma_pos (lonDeg latDeg : ℝ) : 0 < wgsGamma lonDeg latDeg :=
  Real.sqrt_pos.mpr (dot_gsn_wgsK_pos lonDeg latDeg)

theorem carto_ne_zero (lonDeg latDeg : ℝ) :
    cartographicToCartesianWGS84 lonDeg latDeg ≠ Vec3.zero := by
  intro h
  have hdotpos := dot_gsn_wgsK_pos lonDeg latDeg
  have hγ : 0 < wgsGamma lonDeg latDeg := wgsGamma_pos lonDeg latDeg
  have hd : Vec3.dot (geodeticSurfaceNormal (toRadians lonDeg) (toRadians latDeg))
      (cartographicToCartesianWGS84 lonDeg latDeg)
      = (1 / wgsGamma lonDeg latDeg) *
        Vec3.dot (geodeticSurfaceNormal (toRadians lonDeg) (toRadians latDeg))
          (wgsK lonDeg latDeg) := by
    rw [cartographicToCartesianWGS84, Vec3.dot_scale_right]
  rw [h] at hd
  have hz : Vec3.dot (geodeticSurfaceNormal (toRadians lonDeg) (toRadians latDeg))
      Vec3.zero = 0 := by
    simp [Vec3.dot, Vec3.zero]
  rw [hz] at hd
  have : 0 < (1 / wgsGamma lonDeg latDeg) *
      Vec3.dot (geodeticSurfaceNormal (toRadians lonDeg) (toRadians latDeg))
        (wgsK lonDeg latDeg) := by
    apply mul_pos _ hdotpos
    positivity
  linarith [this, hd.symm.le]

/-! ## Concrete anchors for the witnesses: the equator point (0°, 0°) and the
north pole (0°, 90°) -/

theorem toRadians_zero : toRadians 0 = 0 := by
  simp [toRadians]

theorem toRadians_ninety : toRadians 90 = Real.pi / 2 := by
  rw [toRadians]
  ring

theorem gsn_equator : geodeticSurfaceNormal (toRadians 0) (toRadians 0) = ⟨1, 0, 0⟩ := by
  rw [toRadians_zero]
  ext <;> simp [geodeticSurfaceNormal]

theorem wgsK_equator : wgsK 0 0 = ⟨wgs84a * wgs84a, 0, 0⟩ := by
  rw [wgsK, gsn_equator]
  ext <;> simp

theorem wgsGamma_equator : wgsGamma 0 0 = wgs84a := by
  rw [wgsGamma, gsn_equator, wgsK_equator]
  simp only [Vec3.dot]
  rw [show (1:ℝ) * (wgs84a * wgs84a) + 0 * 0 + 0 * 0 = wgs84a * wgs84a by ring]
  exact Real.sqrt_mul_self (by norm_num [wgs84a])

theorem carto_equator : cartographicToCartesianWGS84 0 0 = ⟨wgs84a, 0, 0⟩ := by
  rw [cartographicToCartesianWGS84, wgsGamma_equator, wgsK_equator]
  have ha : wgs84a ≠ 0 := by norm_num [wgs84a]
  ext <;> simp [Vec3.scale] <;> field_simp

theorem normalize_carto_equator :
    Vec3.normalize (cartographicToCartesianWGS84 0 0) = ⟨1, 0, 0⟩ := by
  rw [carto_equator, Vec3.normalize, Vec3.magnitude_xaxis,
    abs_of_pos (by norm_num [wgs84a] : (0:ℝ) < wgs84a)]
  have ha : wgs84a ≠ 0 := by norm_num [wgs84a]
  ext <;> simp [Vec3.scale] <;> field_simp

theorem gsn_pole : geodeticSurfaceNormal (toRadians 0) (toRadians 90) = ⟨0, 0, 1⟩ := by
  rw [toRadians_zero, toRadians_ninety]
  ext <;> simp [geodeticSurfaceNormal]

theorem wgsK_pole : wgsK 0 90 = ⟨0, 0, wgs84b * wgs84b⟩ := by
  rw [wgsK, gsn_pole]
  ext <;> simp

theorem wgsGamma_pole : wgsGamma 0 90 = wgs84b := by
  rw [wgsGamma, gsn_pole, wgsK_pole]
  simp only [Vec3.dot]
  rw [show (0:ℝ) * 0 + 0 * 0 + 1 * (wgs84b * wgs84b) = wgs84b * wgs84b by ring]
  exact Real.sqrt_mul_self wgs84b_pos.le

theorem carto_pole : cartographicToCartesianWGS84 0 90 = ⟨0, 0, wgs84b⟩ := by
  rw [cartographicToCartesianWGS84, wgsGamma_pole, wgsK_pole]
  have hb : wgs84b ≠ 0 := wgs84b_pos.ne.symm
  ext <;> simp [Vec3.scale] <;> field_simp

theorem normalize_carto_pole :
    Vec3.normalize (cartographicToCartesianWGS84 0 90) = ⟨0, 0, 1⟩ := by
  rw [carto_pole, Vec3.normalize, Vec3.magnitude_zaxis, abs_of_pos wgs84b_pos]
  have hb : wgs84b ≠ 0 := wgs84b_pos.ne.symm
  ext <;> simp [Vec3.scale] <;> field_simp

theorem eastMag_equator :
    Vec3.magnitude (Vec3.cross Vec3.unitZ (Vec3.normalize (cartographicToCartesianWGS84 0 0)))
      = 1 := by
  rw [normalize_carto_equator, Vec3.cross_unitZ_eq]
  simp only
  rw [show (⟨-0, 1, 0⟩ : Vec3) = ⟨0, 1, 0⟩ by ext <;> simp, Vec3.magnitude_yaxis]
  norm_num

theorem eastMag_pole :
    Vec3.magnitude (Vec3.cross Vec3.unitZ (Vec3.normalize (cartographicToCartesianWGS84 0 90)))
      = 0 := by
  rw [normalize_carto_pole, Vec3.cross_unitZ_eq]
  simp only
  rw [show (⟨-0, 0, 0⟩ : Vec3) = ⟨0, 0, 0⟩ by ext <;> simp, Vec3.magnitude_zaxis]
  norm_num

/-! ## Bridging lemmas for the selection flow -/

theorem find_some_id (stops : List Stop) (sid : ℕ) :
    stops.find? (fun s => some s.id = some sid) = stops.find? (fun s => s.id = sid) := by
  induction stops with
  | nil => rfl
  | cons a t ih =>
      by_cases h : a.id = sid
      · simp [List.find?, h]
      · simp [List.find?, h, ih]

theorem find_nonempty (stops : List Stop) (p : Stop → Bool) (stop : Stop)
    (hfind : stops.find? p = some stop) : stops.length ≠ 0 := by
  intro hlen
  rw [List.length_eq_zero] at hlen
  subst hlen
  simp at hfind

/-! ## Claim theorems -/

/-- Claim C2, counterexample: `applyOverviewConstraints` (in `autoRotate.ts`)
is a code path that applies Overview constraints, but it writes
`minimumZoomDistance = 20_000_000`, `maximumZoomDistance = 40_000_000`,
not the claimed `2_000_000` / `30_000_000`, refuting "every code path that
applies Overview constraints sets these same Overview values". -/
theorem applyOverviewConstraints_differs :
    applyOverviewConstraints = ⟨20000000, some 40000000⟩ ∧
    applyOverviewConstraints ≠ ⟨OVERVIEW_MIN_ZOOM, some OVERVIEW_MAX_ZOOM⟩ :=
  ⟨rfl, by decide⟩

/-- Claim C2, amended: `applyCameraConstraints` swaps the zoom bounds
wholesale on every mode change — venue 500 m / 1,000 m, overview
2,000 km / 30,000 km, transition effectively unbounded — but the separate
`applyOverviewConstraints` code path in `autoRotate.ts` writes different
Overview values, 20,000 km / 40,000 km. -/
theorem zoom_bounds_per_mode :
    applyCameraConstraints ViewMode.venue = ⟨VENUE_MIN_ZOOM, some VENUE_MAX_ZOOM⟩ ∧
    applyCameraConstraints ViewMode.overview = ⟨OVERVIEW_MIN_ZOOM, some OVERVIEW_MAX_ZOOM⟩ ∧
    applyCameraConstraints ViewMode.transition = ⟨1, Option.none⟩ ∧
    VENUE_MIN_ZOOM = 500 ∧ VENUE_MAX_ZOOM = 1000 ∧
    OVERVIEW_MIN_ZOOM = 2000000 ∧ OVERVIEW_MAX_ZOOM = 30000000 ∧
    applyOverviewConstraints = ⟨20000000, some 40000000⟩ :=
  ⟨rfl, rfl, rfl, rfl, rfl, rfl, rfl, rfl⟩

/-- Claim C4: whenever the user is pointer-dragging, or a camera flight is in
progress, or less than the 1.2 s wheel cooldown has elapsed since the last
wheel input, `AutoRotateController.tick` performs no rotation call at all and
leaves the controller state unchanged. -/
theorem autorotate_tick_no_rotation (s : RotState) (now : ℚ)
    (h : s.isUserInteracting = true ∨ s.isCameraAnimating = true ∨
      now - s.lastInteractionTs < WHEEL_COOLDOWN_MS) :
    rotTick now s = (s, Option.none) := by
  rcases h with h | h | h
  · cases hb : s.autoRotateEnabled <;> simp [rotTick, hb, h]
  · cases hb : s.autoRotateEnabled <;> cases hu : s.isUserInteracting <;>
      simp [rotTick, hb, hu, h]
  · cases hb : s.autoRotateEnabled <;> cases hu : s.isUserInteracting <;>
      cases hc : s.isCameraAnimating <;> simp [rotTick, hb, hu, hc, h]

/-- Claim C4, witness: a tick at `now = 100` with a camera flight in progress
performs no rotation. -/
theorem autorotate_tick_no_rotation_witness :
    (RotState.mk true false 0 true 0).isCameraAnimating = true ∧
    rotTick 100 (RotState.mk true false 0 true 0) = (RotState.mk true false 0 true 0, Option.none) :=
  ⟨rfl, autorotate_tick_no_rotation (RotState.mk true false 0 true 0) 100 (Or.inr (Or.inl rfl))⟩

/-- Claim C8: the venue-flight duration
`min(1.15, max(0.45, dist / 3_500_000))` lies within `[0.45 s, 1.15 s]` for
every nonnegative travel distance, and is monotone non-decreasing in the
distance. -/
theorem venue_duration_bounds_and_mono :
    (∀ d : ℚ, 0 ≤ d →
      45 / 100 ≤ venueFlightDuration d ∧ venueFlightDuration d ≤ 115 / 100) ∧
    (∀ d1 d2 : ℚ, 0 ≤ d1 → d1 ≤ d2 → venueFlightDuration d1 ≤ venueFlightDuration d2) := by
  constructor
  · intro d _
    refine ⟨le_min (by norm_num) (le_max_left _ _), min_le_left _ _⟩
  · intro d1 d2 _ h12
    have hdiv : d1 / 3500000 ≤ d2 / 3500000 := by linarith
    exact min_le_min le_rfl (max_le_max le_rfl hdiv)

/-- Claim C8, witness: concrete distances 1,000 km and 7,000 km. -/
theorem venue_duration_witness :
    ((0:ℚ) ≤ 1000000 ∧ 45 / 100 ≤ venueFlightDuration 1000000 ∧
      venueFlightDuration 1000000 ≤ 115 / 100) ∧
    ((0:ℚ) ≤ 1000000 ∧ (1000000:ℚ) ≤ 7000000 ∧
      venueFlightDuration 1000000 ≤ venueFlightDuration 7000000) :=
  ⟨⟨by norm_num, (venue_duration_bounds_and_mono.1 1000000 (by norm_num)).1,
      (venue_duration_bounds_and_mono.1 1000000 (by norm_num)).2⟩,
    ⟨by norm_num, by norm_num,
      venue_duration_bounds_and_mono.2 1000000 7000000 (by norm_num) (by norm_num)⟩⟩

/-- Claim C10: the missing-coordinate guards test JavaScript falsiness, so a
stop whose latitude or longitude equals exactly `0` is skipped exactly as if
the coordinate were `null`: the fly-to-selected-stop effect performs none of
its side effects, and `flyToOverviewAboveStop` issues nothing either. -/
theorem zero_coordinate_stop_skipped (stops : List Stop) (sid : ℕ) (stop : Stop)
    (hfind : stops.find? (fun s => some s.id = some sid) = some stop)
    (h0 : stop.lat = some 0 ∨ stop.lng = some 0) :
    flyToSelectedEffect true true true (some sid) stops = VenueFx.none ∧
    flyToOverviewAboveStop true stop = OverviewFx.none := by
  have hne := find_nonempty stops _ stop hfind
  have hfind2 : stops.find? (fun s => s.id = sid) = some stop := by
    rw [← find_some_id]
    exact hfind
  rcases h0 with h0 | h0
  · constructor
    · simp [flyToSelectedEffect, hne, hfind, hfind2, optLat, jsTruthy, h0]
    · simp [flyToOverviewAboveStop, jsTruthy, h0]
  · constructor
    · simp [flyToSelectedEffect, hne, hfind, hfind2, optLat, optLng, jsTruthy, h0]
    · simp [flyToOverviewAboveStop, jsTruthy, h0]

/-- Claim C10, witness: a stop at the equator (`lat = 0`, `lng = 10`). -/
theorem zero_coordinate_stop_skipped_witness :
    ([Stop.mk 5 (some 0) (some 10)] : List Stop).find? (fun s => some s.id = some 5)
        = some (Stop.mk 5 (some 0) (some 10)) ∧
    (Stop.mk 5 (some 0) (some 10)).lat = some 0 ∧
    flyToSelectedEffect true true true (some 5) [Stop.mk 5 (some 0) (some 10)] = VenueFx.none ∧
    flyToOverviewAboveStop true (Stop.mk 5 (some 0) (some 10)) = OverviewFx.none := by
  have h := zero_coordinate_stop_skipped [Stop.mk 5 (some 0) (some 10)] 5
    (Stop.mk 5 (some 0) (some 10)) (by rfl) (Or.inl rfl)
  exact ⟨by rfl, rfl, h.1, h.2⟩

/-- Helper: `camera.flyTo` leaves exactly one active corrective flight. -/
theorem govFlyTo_flights (d : ℤ) (s : GovState) : (govFlyTo d s).flights = 1 := by
  by_cases h : s.flights ≠ 0 <;> simp [govFlyTo, h]

/-- Helper: `clampCameraToBounds` never leaves more than one active flight. -/
theorem clampCameraToBounds_flights_le (s : GovState) (h : s.flights ≤ 1) :
    (clampCameraToBounds s).flights ≤ 1 := by
  rw [clampCameraToBounds]
  by_cases hm : s.mode = ViewMode.transition
  · simp [hm, h]
  · simp only [hm, if_false]
    by_cases hib : govMinDist s.mode s.tracked ≤ s.dist ∧ s.dist ≤ govMaxDist s.mode s.tracked
    · simp [hib, h]
    · simp [hib, govFlyTo_flights]

/-- Helper: running any number of check loops never leaves more than one
active flight. -/
theorem fireChecks_flights_le (n : ℕ) : ∀ s : GovState, s.flights ≤ 1 →
    (fireChecks n s).flights ≤ 1 := by
  induction n with
  | zero => intro s h; simpa [fireChecks] using h
  | succ m ih =>
      intro s h
      rw [fireChecks, fireOneCheck]
      exact ih _ (clampCameraToBounds_flights_le _ (by simpa using h))

/-- Claim C9: if a debounced check fires while the camera is already within
the active bounds (or while the mode is transition), the module-level
`clampScheduled` flag is set with no corrective flight started; and the
latched configuration is absorbing — under every subsequent event sequence
(wheel events return early from `scheduleClampCheck`, animation frames find
no live check loop, and no flight callback ever fires because no flight is
active) the flag stays `true`, no check loop is ever spawned, and no
corrective flight ever starts. -/
theorem clamp_latch_permanent :
    (∀ (s : GovState) (t : ℤ), s.pendingChecks = 1 → s.flights = 0 →
      WHEEL_CLAMP_DELAY_MS ≤ t - s.lastWheelTs →
      (s.mode = ViewMode.transition ∨ govInBounds s) →
      govStep s (GovEvent.raf t) = { s with clampScheduled := true, pendingChecks := 0 }) ∧
    (∀ (s : GovState) (evs : List GovEvent), GovLatched s → GovLatched (govRun s evs)) := by
  constructor
  · intro s t hp hf ht hcond
    have hfire : fireChecks 1 s = { s with clampScheduled := true } := by
      rw [fireChecks, fireChecks, fireOneCheck]
      rcases hcond with hm | hib
      · simp [clampCameraToBounds, hm]
      · by_cases hm : s.mode = ViewMode.transition
        · simp [clampCameraToBounds, hm]
        · obtain ⟨h1, h2⟩ := hib
          simp [clampCameraToBounds, hm, h1, h2]
    simp only [govStep, ht, if_pos, hp, hfire]
  · intro s evs hs
    induction evs generalizing s with
    | nil => exact hs
    | cons e t ih =>
        apply ih
        obtain ⟨h1, h2, h3⟩ := hs
        cases e with
        | wheel t0 => simp [govStep, GovLatched, scheduleClampCheck, h1, h2, h3]
        | raf t0 =>
            by_cases hc : WHEEL_CLAMP_DELAY_MS ≤ t0 - s.lastWheelTs <;>
              simp [govStep, GovLatched, hc, h3, fireChecks, h1, h2]
        | flightComplete => simp [govStep, GovLatched, h1, h2, h3]
        | flightCancelled d => simp [govStep, GovLatched, h1, h2, h3]
        | engineZoom d => simp [govStep, GovLatched, h1, h2, h3]
        | setMode m => simp [govStep, GovLatched, h1, h2, h3]
        | setTracked b => simp [govStep, GovLatched, h1, h2, h3]

/-- Claim C9, witness: a check firing at t=200 in overview with the camera in
bounds (2,500 km) latches the flag without a flight, and the latched state
absorbs a wheel, a frame, an engine zoom far out of bounds, and a stray
completion callback. -/
theorem clamp_latch_permanent_witness :
    (GovState.mk ViewMode.overview false 0 false 1 0 0 2500000).pendingChecks = 1 ∧
    govInBounds (GovState.mk ViewMode.overview false 0 false 1 0 0 2500000) ∧
    govStep (GovState.mk ViewMode.overview false 0 false 1 0 0 2500000) (GovEvent.raf 200)
      = GovState.mk ViewMode.overview false 0 true 0 0 0 2500000 ∧
    GovLatched (govRun (GovState.mk ViewMode.overview false 0 true 0 0 0 2500000)
      [GovEvent.wheel 300, GovEvent.raf 500, GovEvent.engineZoom 50000000,
       GovEvent.flightComplete]) := by
  refine ⟨rfl, by decide, ?_, ?_⟩
  · exact (clamp_latch_permanent.1 (GovState.mk ViewMode.overview false 0 false 1 0 0 2500000)
      200 rfl rfl (by decide) (Or.inr (by decide)))
  · exact clamp_latch_permanent.2 (GovState.mk ViewMode.overview false 0 true 0 0 0 2500000)
      [GovEvent.wheel 300, GovEvent.raf 500, GovEvent.engineZoom 50000000,
       GovEvent.flightComplete] (by decide)

/-- Claim C3, counterexample: from venue mode with the camera 1,500 m from the
tracked entity, a wheel at t=0 triggers a corrective flight at t=200; a wheel
at t=250 arrives during the correction and is merely time-stamped; when the
correction completes, the camera is still out of bounds (the venue flight
lands at 1,500,000 m, see C1), yet no check loop is pending and arbitrarily
many later animation frames run no corrective check and start no flight — the
wheel input was dropped, refuting "once that correction finishes, a new
quiet-period check runs". -/
theorem wheel_during_correction_dropped :
    ¬ govInBounds govTraceAfterCorrection ∧
    govTraceAfterCorrection.pendingChecks = 0 ∧
    govTraceAfterCorrection.flights = 0 ∧
    govRun govTraceAfterCorrection [GovEvent.raf 500, GovEvent.raf 1000, GovEvent.raf 5000]
      = govTraceAfterCorrection := by
  refine ⟨by decide, by decide, by decide, by decide⟩

/-- Claim C3, amended: at most one corrective flight is active at a time
(starting a new one cancels the active one first); a wheel input that arrives
while a correction is pending only re-stamps the debounce timestamp and
returns early, spawning no new check loop — so once the correction finishes,
no new quiet-period check runs and no new corrective flight starts until a
later wheel event arrives after the correction has ended. -/
theorem correction_exclusive_wheel_restamps :
    (∀ (s : GovState) (t : ℤ), s.clampScheduled = true →
      govStep s (GovEvent.wheel t) = { s with lastWheelTs := t }) ∧
    (∀ (s : GovState) (e : GovEvent), s.flights ≤ 1 → (govStep s e).flights ≤ 1) ∧
    (∀ (s : GovState) (t : ℤ), s.pendingChecks = 0 → s.flights = 0 →
      (govStep s (GovEvent.raf t)).flights = 0) := by
  refine ⟨?_, ?_, ?_⟩
  · intro s t h
    simp [govStep, scheduleClampCheck, h]
  · intro s e h
    cases e with
    | wheel t0 =>
        rw [govStep, scheduleClampCheck]
        by_cases hcs : s.clampScheduled <;> simp [hcs, h]
    | raf t0 =>
        rw [govStep]
        by_cases hc : WHEEL_CLAMP_DELAY_MS ≤ t0 - s.lastWheelTs
        · simp only [hc, if_pos]
          exact fireChecks_flights_le _ _ h
        · simp [hc, h]
    | flightComplete =>
        rw [govStep]
        by_cases hf : s.flights ≠ 0 <;> simp [hf, h]
    | flightCancelled d =>
        rw [govStep]
        by_cases hf : s.flights ≠ 0 <;> simp [hf, h]
    | engineZoom d => simpa [govStep] using h
    | setMode m => simpa [govStep] using h
    | setTracked b => simpa [govStep] using h
  · intro s t hp hf
    rw [govStep]
    by_cases hc : WHEEL_CLAMP_DELAY_MS ≤ t - s.lastWheelTs
    · simp [hc, hp, fireChecks, hf]
    · simp [hc, hf]

/-- Claim C3 (amended), witness: concrete applications of the three parts. -/
theorem correction_exclusive_wheel_restamps_witness :
    (GovState.mk ViewMode.venue true 0 true 0 1 900 700).clampScheduled = true ∧
    govStep (GovState.mk ViewMode.venue true 0 true 0 1 900 700) (GovEvent.wheel 42)
      = GovState.mk ViewMode.venue true 42 true 0 1 900 700 ∧
    (govStep (GovState.mk ViewMode.venue true 0 true 0 1 900 700)
      (GovEvent.raf 500)).flights ≤ 1 ∧
    (govStep (GovState.mk ViewMode.overview false 0 false 0 0 0 99999999)
      (GovEvent.raf 500)).flights = 0 := by
  refine ⟨rfl, ?_, ?_, ?_⟩
  · exact correction_exclusive_wheel_restamps.1
      (GovState.mk ViewMode.venue true 0 true 0 1 900 700) 42 rfl
  · exact correction_exclusive_wheel_restamps.2.1
      (GovState.mk ViewMode.venue true 0 true 0 1 900 700) (GovEvent.raf 500) (by decide)
  · exact correction_exclusive_wheel_restamps.2.2
      (GovState.mk ViewMode.overview false 0 false 0 0 0 99999999) 500 rfl rfl

/-- Claim C7, counterexample: selecting a stop whose `lat` is `null` issues no
flight, but it is not a no-op — `handleStopSelection` sets
`viewMode = 'venue'` without validating coordinates, so the view mode (and
with it the viewMode-driven side effects) does change. -/
theorem null_lat_selection_changes_mode :
    (handleStopSelection [Stop.mk 1 Option.none (some 10)] 1
        (AppState.mk AppMode.overview Option.none Option.none)).viewMode = AppMode.venue ∧
    AppMode.venue ≠ AppMode.overview ∧
    flyToSelectedEffect true true true
      (handleStopSelection [Stop.mk 1 Option.none (some 10)] 1
        (AppState.mk AppMode.overview Option.none Option.none)).selectedStopId
      [Stop.mk 1 Option.none (some 10)] = VenueFx.none := by
  refine ⟨rfl, by decide, ?_⟩
  rfl

/-- Claim C7, amended: selecting a stop whose `lat` (or `lng`) is `null`
issues no flight and computes no pose — the fly-to-selected-stop effect
returns before any of its side effects run — but the selection handler still
switches the app view mode to venue, so the mode and its mode-driven side
effects do not remain unchanged. -/
theorem null_lat_selection_skips_flight (stops : List Stop) (sid : ℕ) (stop : Stop)
    (s0 : AppState)
    (hfind : stops.find? (fun st => st.id = sid) = some stop)
    (hnull : stop.lat = Option.none ∨ stop.lng = Option.none) :
    flyToSelectedEffect true true true
        (handleStopSelection stops sid s0).selectedStopId stops = VenueFx.none ∧
    (handleStopSelection stops sid s0).viewMode = AppMode.venue := by
  have hsel : handleStopSelection stops sid s0
      = { s0 with selectedStopId := some sid, lastSelectedStopId := some sid,
                  viewMode := AppMode.venue } := by
    rw [handleStopSelection, hfind]
  have hfind2 : stops.find? (fun s => some s.id = some sid) = some stop := by
    rw [find_some_id]
    exact hfind
  have hne := find_nonempty stops _ stop hfind
  rw [hsel]
  refine ⟨?_, rfl⟩
  rcases hnull with h0 | h0
  · simp [flyToSelectedEffect, hne, hfind, hfind2, optLat, jsTruthy, h0]
  · simp [flyToSelectedEffect, hne, hfind, hfind2, optLat, optLng, jsTruthy, h0]

/-- Claim C7, witness: one stop with `lat = null`, selected from Overview. -/
theorem null_lat_selection_skips_flight_witness :
    ([Stop.mk 1 Option.none (some 10)] : List Stop).find? (fun st => st.id = 1)
        = some (Stop.mk 1 Option.none (some 10)) ∧
    (Stop.mk 1 Option.none (some 10)).lat = Option.none ∧
    flyToSelectedEffect true true true
        (handleStopSelection [Stop.mk 1 Option.none (some 10)] 1
          (AppState.mk AppMode.overview Option.none Option.none)).selectedStopId
        [Stop.mk 1 Option.none (some 10)] = VenueFx.none ∧
    (handleStopSelection [Stop.mk 1 Option.none (some 10)] 1
        (AppState.mk AppMode.overview Option.none Option.none)).viewMode = AppMode.venue := by
  have h := null_lat_selection_skips_flight [Stop.mk 1 Option.none (some 10)] 1
    (Stop.mk 1 Option.none (some 10)) (AppState.mk AppMode.overview Option.none Option.none)
    (by rfl) (Or.inl rfl)
  exact ⟨by rfl, rfl, h.1, h.2⟩

/-- Helper: the pose record in the non-polar branch. -/
theorem pose_eq_nonpolar (lonDeg latDeg d : ℝ)
    (hnot : ¬ Vec3.magnitude (Vec3.cross Vec3.unitZ
      (Vec3.normalize (cartographicToCartesianWGS84 lonDeg latDeg))) < 1 / 10 ^ 10) :
    computeEarthCenteredPoseAboveLatLng lonDeg latDeg d
      = { destination := Vec3.scale d (Vec3.normalize (cartographicToCartesianWGS84 lonDeg latDeg)),
          direction := Vec3.normalize (Vec3.neg (Vec3.scale d
            (Vec3.normalize (cartographicToCartesianWGS84 lonDeg latDeg)))),
          up := Vec3.normalize (Vec3.cross
            (Vec3.normalize (cartographicToCartesianWGS84 lonDeg latDeg))
            (Vec3.normalize (Vec3.cross Vec3.unitZ
              (Vec3.normalize (cartographicToCartesianWGS84 lonDeg latDeg))))) } := by
  simp only [computeEarthCenteredPoseAboveLatLng, if_neg hnot]

/-- Helper: the pose record in the polar-fallback branch. -/
theorem pose_eq_polar (lonDeg latDeg d : ℝ)
    (hlt : Vec3.magnitude (Vec3.cross Vec3.unitZ
      (Vec3.normalize (cartographicToCartesianWGS84 lonDeg latDeg))) < 1 / 10 ^ 10) :
    computeEarthCenteredPoseAboveLatLng lonDeg latDeg d
      = { destination := Vec3.scale d (Vec3.normalize (cartographicToCartesianWGS84 lonDeg latDeg)),
          direction := Vec3.normalize (Vec3.neg (Vec3.scale d
            (Vec3.normalize (cartographicToCartesianWGS84 lonDeg latDeg)))),
          up := Vec3.unitX } := by
  simp only [computeEarthCenteredPoseAboveLatLng, if_pos hlt]

/-- Claim C5: for every non-polar anchor (the east vector
`cross(UNIT_Z, n)` has magnitude at least the 1e-10 threshold) and every
positive `distanceFromCenter`, the pose has a unit look direction and unit up
vector (within 1e-6, in fact exactly), `direction·up ≈ 0` (within 1e-6, in
fact exactly), the destination is exactly `distanceFromCenter` from the body
center along the surface normal, and walking `distanceFromCenter` along the
look direction from the destination reaches the body center. -/
theorem pose_orthonormal_nonpolar (lonDeg latDeg d : ℝ) (hd : 0 < d)
    (heast : 1 / 10 ^ 10 ≤ Vec3.magnitude (Vec3.cross Vec3.unitZ
      (Vec3.normalize (cartographicToCartesianWGS84 lonDeg latDeg)))) :
    |Vec3.magnitude (computeEarthCenteredPoseAboveLatLng lonDeg latDeg d).direction - 1|
      ≤ 1 / 10 ^ 6 ∧
    |Vec3.magnitude (computeEarthCenteredPoseAboveLatLng lonDeg latDeg d).up - 1|
      ≤ 1 / 10 ^ 6 ∧
    |Vec3.dot (computeEarthCenteredPoseAboveLatLng lonDeg latDeg d).direction
      (computeEarthCenteredPoseAboveLatLng lonDeg latDeg d).up| ≤ 1 / 10 ^ 6 ∧
    Vec3.magnitude (computeEarthCenteredPoseAboveLatLng lonDeg latDeg d).destination = d ∧
    (computeEarthCenteredPoseAboveLatLng lonDeg latDeg d).destination
      = Vec3.scale d (Vec3.normalize (cartographicToCartesianWGS84 lonDeg latDeg)) ∧
    Vec3.add (computeEarthCenteredPoseAboveLatLng lonDeg latDeg d).destination
      (Vec3.scale d (computeEarthCenteredPoseAboveLatLng lonDeg latDeg d).direction)
      = Vec3.zero := by
  have hS0 : cartographicToCartesianWGS84 lonDeg latDeg ≠ Vec3.zero :=
    carto_ne_zero lonDeg latDeg
  set n := Vec3.normalize (cartographicToCartesianWGS84 lonDeg latDeg) with hn
  have hn1 : Vec3.magnitude n = 1 := Vec3.magnitude_normalize _ hS0
  have hnot : ¬ Vec3.magnitude (Vec3.cross Vec3.unitZ n) < 1 / 10 ^ 10 := not_lt.mpr heast
  rw [pose_eq_nonpolar lonDeg latDeg d hnot]
  have hdir : Vec3.normalize (Vec3.neg (Vec3.scale d n)) = Vec3.scale (-1) n :=
    Vec3.normalize_neg_scale d hd n hn1
  have he0 : Vec3.cross Vec3.unitZ n ≠ Vec3.zero := by
    intro h
    rw [h, (Vec3.magnitude_eq_zero_iff Vec3.zero).mpr rfl] at heast
    norm_num at heast
  have he1 : Vec3.magnitude (Vec3.normalize (Vec3.cross Vec3.unitZ n)) = 1 :=
    Vec3.magnitude_normalize _ he0
  have hdotne : Vec3.dot n (Vec3.normalize (Vec3.cross Vec3.unitZ n)) = 0 := by
    rw [Vec3.normalize, Vec3.dot_scale_right, Vec3.dot_comm, Vec3.dot_cross_right, mul_zero]
  have hcrossSq : Vec3.magnitudeSquared
      (Vec3.cross n (Vec3.normalize (Vec3.cross Vec3.unitZ n))) = 1 := by
    rw [Vec3.magnitudeSquared_cross, Vec3.magnitudeSquared_of_magnitude_one n hn1,
      Vec3.magnitudeSquared_of_magnitude_one _ he1, hdotne]
    norm_num
  have hcross0 : Vec3.cross n (Vec3.normalize (Vec3.cross Vec3.unitZ n)) ≠ Vec3.zero := by
    intro h
    rw [h] at hcrossSq
    rw [(Vec3.magnitudeSquared_eq_zero_iff Vec3.zero).mpr rfl] at hcrossSq
    norm_num at hcrossSq
  have hup1 : Vec3.magnitude (Vec3.normalize
      (Vec3.cross n (Vec3.normalize (Vec3.cross Vec3.unitZ n)))) = 1 :=
    Vec3.magnitude_normalize _ hcross0
  have hdotdu : Vec3.dot (Vec3.scale (-1) n) (Vec3.normalize
      (Vec3.cross n (Vec3.normalize (Vec3.cross Vec3.unitZ n)))) = 0 := by
    rw [Vec3.normalize, Vec3.dot_scale_left, Vec3.dot_scale_right, Vec3.dot_comm,
      Vec3.dot_cross_left]
    ring
  refine ⟨?_, ?_, ?_, ?_, rfl, ?_⟩
  · rw [hdir, Vec3.magnitude_scale, hn1]
    norm_num
  · rw [hup1]
    norm_num
  · rw [hdir, hdotdu]
    norm_num
  · rw [Vec3.magnitude_scale, hn1, abs_of_pos hd]
    ring
  · rw [hdir, Vec3.scale_scale]
    ext <;> simp [Vec3.add, Vec3.scale, Vec3.zero] <;> ring

/-- Claim C5, witness: the equator anchor (0°, 0°) at 10,000 km from the
center; the east vector there has magnitude 1 ≥ 1e-10, and the destination is
exactly 10,000 km from the center. -/
theorem pose_orthonormal_nonpolar_witness :
    (0:ℝ) < 10000000 ∧
    1 / 10 ^ 10 ≤ Vec3.magnitude (Vec3.cross Vec3.unitZ
      (Vec3.normalize (cartographicToCartesianWGS84 0 0))) ∧
    Vec3.magnitude (computeEarthCenteredPoseAboveLatLng 0 0 10000000).destination
      = 10000000 := by
  refine ⟨by norm_num, ?_, ?_⟩
  · rw [eastMag_equator]
    norm_num
  · exact (pose_orthonormal_nonpolar 0 0 10000000 (by norm_num)
      (by rw [eastMag_equator]; norm_num)).2.2.2.1

/-- Claim C6: for every polar or near-polar anchor (east-vector magnitude
below the 1e-10 threshold) and positive distance, the fallback path returns a
well-defined basis: unit look direction, unit up vector (`UNIT_X`), and
`direction·up` within 1e-6 of zero (in fact below 1e-10). Over `ℝ` the
function is total, so no `NaN` components arise and no exception path
exists. -/
theorem pose_polar_fallback (lonDeg latDeg d : ℝ) (hd : 0 < d)
    (heast : Vec3.magnitude (Vec3.cross Vec3.unitZ
      (Vec3.normalize (cartographicToCartesianWGS84 lonDeg latDeg))) < 1 / 10 ^ 10) :
    Vec3.magnitude (computeEarthCenteredPoseAboveLatLng lonDeg latDeg d).direction = 1 ∧
    Vec3.magnitude (computeEarthCenteredPoseAboveLatLng lonDeg latDeg d).up = 1 ∧
    |Vec3.dot (computeEarthCenteredPoseAboveLatLng lonDeg latDeg d).direction
      (computeEarthCenteredPoseAboveLatLng lonDeg latDeg d).up| ≤ 1 / 10 ^ 6 := by
  have hS0 : cartographicToCartesianWGS84 lonDeg latDeg ≠ Vec3.zero :=
    carto_ne_zero lonDeg latDeg
  set n := Vec3.normalize (cartographicToCartesianWGS84 lonDeg latDeg) with hn
  have hn1 : Vec3.magnitude n = 1 := Vec3.magnitude_normalize _ hS0
  rw [pose_eq_polar lonDeg latDeg d heast]
  have hdir : Vec3.normalize (Vec3.neg (Vec3.scale d n)) = Vec3.scale (-1) n :=
    Vec3.normalize_neg_scale d hd n hn1
  refine ⟨?_, ?_, ?_⟩
  · rw [hdir, Vec3.magnitude_scale, hn1]
    norm_num
  · rw [show Vec3.unitX = (⟨1, 0, 0⟩ : Vec3) from rfl, Vec3.magnitude_xaxis]
    norm_num
  · rw [hdir]
    have hdx : Vec3.dot (Vec3.scale (-1) n) Vec3.unitX = -n.x := by
      simp [Vec3.dot, Vec3.scale, Vec3.unitX]
    rw [hdx, abs_neg]
    have h1 := Vec3.abs_x_le_magnitude_cross_unitZ n
    have h2 : (1:ℝ) / 10 ^ 10 ≤ 1 / 10 ^ 6 := by norm_num
    linarith

/-- Claim C6, witness: the north pole anchor (0°, 90°), where the east vector
is exactly zero and the fallback up vector is `UNIT_X`. -/
theorem pose_polar_fallback_witness :
    (0:ℝ) < 10000000 ∧
    Vec3.magnitude (Vec3.cross Vec3.unitZ
      (Vec3.normalize (cartographicToCartesianWGS84 0 90))) < 1 / 10 ^ 10 ∧
    Vec3.magnitude (computeEarthCenteredPoseAboveLatLng 0 90 10000000).up = 1 := by
  refine ⟨by norm_num, ?_, ?_⟩
  · rw [eastMag_pole]
    norm_num
  · exact (pose_polar_fallback 0 90 10000000 (by norm_num)
      (by rw [eastMag_pole]; norm_num)).2.1

/-- Claim C1: evaluation of `clampCameraToBounds` at a failing input. In venue
mode with the tracked entity at the origin and the camera 1,500 m away (out of
the [500, 1000] bounds), the corrective-flight destination is 1,500,000 m from
the target — the unnormalized direction vector (magnitude 1,500) is multiplied
by the clamped distance 1,000 — far outside the venue bounds, contradicting
the function's own doc comment ("Clamps camera to zoom bounds"). -/
theorem clamp_venue_lands_out_of_bounds :
    clampCameraToBoundsDest ViewMode.venue ⟨1500, 0, 0⟩ (some ⟨0, 0, 0⟩) 6378137
      = some ⟨1500000, 0, 0⟩ ∧
    Vec3.distance ⟨1500000, 0, 0⟩ ⟨0, 0, 0⟩ = 1500000 ∧
    ¬ ((500:ℝ) ≤ 1500000 ∧ (1500000:ℝ) ≤ 1000) := by
  have hsub : Vec3.sub (⟨1500, 0, 0⟩ : Vec3) ⟨0, 0, 0⟩ = ⟨1500, 0, 0⟩ := by
    ext <;> simp [Vec3.sub]
  have hdist : Vec3.distance (⟨1500, 0, 0⟩ : Vec3) ⟨0, 0, 0⟩ = 1500 := by
    rw [Vec3.distance, hsub, Vec3.magnitude_xaxis]
    norm_num
  have hmm : min (max (1500:ℝ) 500) 1000 = 1000 := by
    rw [max_eq_left (by norm_num : (500:ℝ) ≤ 1500),
      min_eq_right (by norm_num : (1000:ℝ) ≤ 1500)]
  refine ⟨?_, ?_, by norm_num⟩
  · rw [clampCameraToBoundsDest, if_neg (by decide : ¬ ViewMode.venue = ViewMode.transition)]
    show clampDestFrom ViewMode.venue ⟨1500, 0, 0⟩ 500 1000 ⟨0, 0, 0⟩
      (Vec3.sub ⟨1500, 0, 0⟩ ⟨0, 0, 0⟩) 6378137 = some ⟨1500000, 0, 0⟩
    rw [hsub]
    simp only [clampDestFrom, hdist]
    rw [if_neg (by norm_num)]
    simp only [if_true]
    rw [hmm]
    simp only [Vec3.add, Vec3.scale, Option.some.injEq]
    ext <;> norm_num
  · have hsub2 : Vec3.sub (⟨1500000, 0, 0⟩ : Vec3) ⟨0, 0, 0⟩ = ⟨1500000, 0, 0⟩ := by
      ext <;> simp [Vec3.sub]
    rw [Vec3.distance, hsub2, Vec3.magnitude_xaxis]
    norm_num

end Tour
